import Mathlib

set_option maxRecDepth 4000

/-!
# Verification of the `pve_switch` VM switch orchestrator

Shallow embedding of `src/pve_switch/__init__.py` (class `VMController`).

Modelling conventions:

* Every external interaction is recorded in an event trace (`Event`):
  Proxmox status queries, shutdown/stop/start posts, Telegram messages
  (the one-shot preflight notification, the initial progress message,
  and edits of the progress message), and `asyncio.sleep` calls.
  An event is recorded when the call is *issued*, whether or not it
  subsequently raises.
* The outcome of each external call made by one `perform_switch`
  invocation is supplied by an oracle structure `Env`
  (the statuses the Proxmox API reports, whether each Telegram or
  Proxmox mutation call raises, and with which message).
* Python exceptions are modelled explicitly: a call site that the code
  wraps in `try/except` consults its oracle field; an exception that no
  handler catches makes the embedded function return `none` in place of
  a result dictionary (the exception escapes `perform_switch`).
* Python strings are Lean `String`s; the result dictionary
  `{"status": ..., "message": ...}` is the structure `SwitchResult`.
* `self._op_lock.locked()` (the asyncio mutex being held by another
  in-flight invocation) is the boolean `Env.opLocked`;
  `self._manual_lock` is `Env.locked`.
-/

/-- The two values of `target_os : Literal["linux", "windows"]`. -/
inductive TargetOS
  | linux
  | windows
deriving DecidableEq, Repr

/-- The fields of `Config` that the switching logic reads
(`vm_id_linux`, `vm_id_win`).  The remaining fields are connection /
bot / path configuration consumed by the external collaborators. -/
structure Config where
  vm_id_linux : Nat
  vm_id_win : Nat
deriving DecidableEq, Repr

/-- Outcome of one Proxmox `status.current.get()` call, as consumed by
`get_vm_status`: a successful reply whose `"status"` key holds `s`, a
successful reply missing the `"status"` key, or a raised exception. -/
inductive QueryOutcome
  | ok (s : String)
  | missingKey
  | exc
deriving DecidableEq, Repr

/-- `get_vm_status`: returns `status_data.get("status", "unknown")`, and
turns any exception into the string `"error"` (never raises). -/
def get_vm_status (q : QueryOutcome) : String :=
  match q with
  | .ok s => s
  | .missingKey => "unknown"
  | .exc => "error"

/-- A Python runtime value as it appears in the status dictionary:
either a `str` or a `bool`. -/
inductive PyVal
  | pystr (s : String)
  | pybool (b : Bool)
deriving DecidableEq, Repr

/-- Python `str(b)` on a `bool`. -/
def pyStrOfBool (b : Bool) : String := if b then "True" else "False"

/-- The dictionary returned by `get_full_status`. -/
structure FullStatus where
  linux : String
  windows : String
  locked : PyVal
deriving DecidableEq, Repr

/-- `get_full_status`: one independent `get_vm_status` per role, plus
`"locked": str(self.is_locked)`. -/
def get_full_status (qLinux qWin : QueryOutcome) (manual_lock : Bool) :
    FullStatus :=
  ⟨get_vm_status qLinux, get_vm_status qWin, PyVal.pystr (pyStrOfBool manual_lock)⟩

/-- The lock file on disk: absent, present but unreadable
(open/read raises), or present with content `s`. -/
inductive FileState
  | absent
  | unreadable
  | content (s : String)
deriving DecidableEq, Repr

/-- The characters removed by Python `str.strip()` with no argument:
the 29 codepoints CPython treats as whitespace — tab through carriage
return (0x09-0x0D), the separators 0x1C-0x1F, space, next line (0x85),
no-break space (0xA0), and the Unicode space characters 0x1680,
0x2000-0x200A, 0x2028, 0x2029, 0x202F, 0x205F, 0x3000. -/
def pyIsSpace (c : Char) : Bool :=
  [0x09, 0x0A, 0x0B, 0x0C, 0x0D, 0x1C, 0x1D, 0x1E, 0x1F, 0x20, 0x85, 0xA0,
   0x1680, 0x2000, 0x2001, 0x2002, 0x2003, 0x2004, 0x2005, 0x2006, 0x2007,
   0x2008, 0x2009, 0x200A, 0x2028, 0x2029, 0x202F, 0x205F,
   0x3000].contains c.toNat

/-- Python `s.strip()`. -/
def pyStrip (s : String) : String :=
  String.mk (((s.data.dropWhile pyIsSpace).reverse.dropWhile pyIsSpace).reverse)

/-- `VMController._load_lock_state`: `False` when the file is absent or
reading raises; otherwise compares the stripped content with
`"LOCKED"`. -/
def _load_lock_state (fs : FileState) : Bool :=
  match fs with
  | .absent => false
  | .unreadable => false
  | .content s => pyStrip s == "LOCKED"

/-- The in-memory controller lock state (`self._manual_lock`). -/
structure LockCtl where
  manual_lock : Bool
deriving DecidableEq, Repr

/-- The `is_locked` property. -/
def is_locked (c : LockCtl) : Bool := c.manual_lock

/-- `VMController.set_lock`: assigns `self._manual_lock` first, then
writes `"LOCKED"`/`"UNLOCKED"` to the file; a write failure
(`writeOk = false`) is caught and logged, leaving the file as it was
and the memory assignment in place.  The function never raises. -/
def set_lock (locked : Bool) (fs : FileState) (writeOk : Bool) :
    LockCtl × FileState :=
  (⟨locked⟩,
   if writeOk then FileState.content (if locked then "LOCKED" else "UNLOCKED")
   else fs)

/-- One externally visible action of a `perform_switch` invocation. -/
inductive Event
  | statusQuery (vmid : Nat)
  | notifyMsg (text : String)
  | initMsg (text : String)
  | editMsg (text : String)
  | shutdownPost (vmid : Nat)
  | stopPost (vmid : Nat)
  | startPost (vmid : Nat)
  | sleep (seconds : Nat)
deriving DecidableEq, Repr

/-- Control-plane (Proxmox) mutation calls: shutdown, forced stop, start. -/
def Event.isMutation : Event → Bool
  | .statusQuery _ => false
  | .notifyMsg _ => false
  | .initMsg _ => false
  | .editMsg _ => false
  | .shutdownPost _ => true
  | .stopPost _ => true
  | .startPost _ => true
  | .sleep _ => false

/-- Forced-stop posts (`status.stop.post()`). -/
def Event.isForceStop : Event → Bool
  | .statusQuery _ => false
  | .notifyMsg _ => false
  | .initMsg _ => false
  | .editMsg _ => false
  | .shutdownPost _ => false
  | .stopPost _ => true
  | .startPost _ => false
  | .sleep _ => false

/-- Start posts (`status.start.post()`). -/
def Event.isStart : Event → Bool
  | .statusQuery _ => false
  | .notifyMsg _ => false
  | .initMsg _ => false
  | .editMsg _ => false
  | .shutdownPost _ => false
  | .stopPost _ => false
  | .startPost _ => true
  | .sleep _ => false

/-- Graceful shutdown posts (`status.shutdown.post()`). -/
def Event.isShutdownReq : Event → Bool
  | .statusQuery _ => false
  | .notifyMsg _ => false
  | .initMsg _ => false
  | .editMsg _ => false
  | .shutdownPost _ => true
  | .stopPost _ => false
  | .startPost _ => false
  | .sleep _ => false

/-- Sleeps (`asyncio.sleep`). -/
def Event.isSleep : Event → Bool
  | .statusQuery _ => false
  | .notifyMsg _ => false
  | .initMsg _ => false
  | .editMsg _ => false
  | .shutdownPost _ => false
  | .stopPost _ => false
  | .startPost _ => false
  | .sleep _ => true


/-! Per-constructor evaluation lemmas for the event predicates. -/

@[simp] theorem Event.isMutation_statusQuery (v : Nat) :
    Event.isMutation (Event.statusQuery v) = false := rfl

@[simp] theorem Event.isMutation_notifyMsg (s : String) :
    Event.isMutation (Event.notifyMsg s) = false := rfl

@[simp] theorem Event.isMutation_initMsg (s : String) :
    Event.isMutation (Event.initMsg s) = false := rfl

@[simp] theorem Event.isMutation_editMsg (s : String) :
    Event.isMutation (Event.editMsg s) = false := rfl

@[simp] theorem Event.isMutation_shutdownPost (v : Nat) :
    Event.isMutation (Event.shutdownPost v) = true := rfl

@[simp] theorem Event.isMutation_stopPost (v : Nat) :
    Event.isMutation (Event.stopPost v) = true := rfl

@[simp] theorem Event.isMutation_startPost (v : Nat) :
    Event.isMutation (Event.startPost v) = true := rfl

@[simp] theorem Event.isMutation_sleep (n : Nat) :
    Event.isMutation (Event.sleep n) = false := rfl

@[simp] theorem Event.isForceStop_statusQuery (v : Nat) :
    Event.isForceStop (Event.statusQuery v) = false := rfl

@[simp] theorem Event.isForceStop_notifyMsg (s : String) :
    Event.isForceStop (Event.notifyMsg s) = false := rfl

@[simp] theorem Event.isForceStop_initMsg (s : String) :
    Event.isForceStop (Event.initMsg s) = false := rfl

@[simp] theorem Event.isForceStop_editMsg (s : String) :
    Event.isForceStop (Event.editMsg s) = false := rfl

@[simp] theorem Event.isForceStop_shutdownPost (v : Nat) :
    Event.isForceStop (Event.shutdownPost v) = false := rfl

@[simp] theorem Event.isForceStop_stopPost (v : Nat) :
    Event.isForceStop (Event.stopPost v) = true := rfl

@[simp] theorem Event.isForceStop_startPost (v : Nat) :
    Event.isForceStop (Event.startPost v) = false := rfl

@[simp] theorem Event.isForceStop_sleep (n : Nat) :
    Event.isForceStop (Event.sleep n) = false := rfl

@[simp] theorem Event.isStart_statusQuery (v : Nat) :
    Event.isStart (Event.statusQuery v) = false := rfl

@[simp] theorem Event.isStart_notifyMsg (s : String) :
    Event.isStart (Event.notifyMsg s) = false := rfl

@[simp] theorem Event.isStart_initMsg (s : String) :
    Event.isStart (Event.initMsg s) = false := rfl

@[simp] theorem Event.isStart_editMsg (s : String) :
    Event.isStart (Event.editMsg s) = false := rfl

@[simp] theorem Event.isStart_shutdownPost (v : Nat) :
    Event.isStart (Event.shutdownPost v) = false := rfl

@[simp] theorem Event.isStart_stopPost (v : Nat) :
    Event.isStart (Event.stopPost v) = false := rfl

@[simp] theorem Event.isStart_startPost (v : Nat) :
    Event.isStart (Event.startPost v) = true := rfl

@[simp] theorem Event.isStart_sleep (n : Nat) :
    Event.isStart (Event.sleep n) = false := rfl

@[simp] theorem Event.isShutdownReq_statusQuery (v : Nat) :
    Event.isShutdownReq (Event.statusQuery v) = false := rfl

@[simp] theorem Event.isShutdownReq_notifyMsg (s : String) :
    Event.isShutdownReq (Event.notifyMsg s) = false := rfl

@[simp] theorem Event.isShutdownReq_initMsg (s : String) :
    Event.isShutdownReq (Event.initMsg s) = false := rfl

@[simp] theorem Event.isShutdownReq_editMsg (s : String) :
    Event.isShutdownReq (Event.editMsg s) = false := rfl

@[simp] theorem Event.isShutdownReq_shutdownPost (v : Nat) :
    Event.isShutdownReq (Event.shutdownPost v) = true := rfl

@[simp] theorem Event.isShutdownReq_stopPost (v : Nat) :
    Event.isShutdownReq (Event.stopPost v) = false := rfl

@[simp] theorem Event.isShutdownReq_startPost (v : Nat) :
    Event.isShutdownReq (Event.startPost v) = false := rfl

@[simp] theorem Event.isShutdownReq_sleep (n : Nat) :
    Event.isShutdownReq (Event.sleep n) = false := rfl

@[simp] theorem Event.isSleep_statusQuery (v : Nat) :
    Event.isSleep (Event.statusQuery v) = false := rfl

@[simp] theorem Event.isSleep_notifyMsg (s : String) :
    Event.isSleep (Event.notifyMsg s) = false := rfl

@[simp] theorem Event.isSleep_initMsg (s : String) :
    Event.isSleep (Event.initMsg s) = false := rfl

@[simp] theorem Event.isSleep_editMsg (s : String) :
    Event.isSleep (Event.editMsg s) = false := rfl

@[simp] theorem Event.isSleep_shutdownPost (v : Nat) :
    Event.isSleep (Event.shutdownPost v) = false := rfl

@[simp] theorem Event.isSleep_stopPost (v : Nat) :
    Event.isSleep (Event.stopPost v) = false := rfl

@[simp] theorem Event.isSleep_startPost (v : Nat) :
    Event.isSleep (Event.startPost v) = false := rfl

@[simp] theorem Event.isSleep_sleep (n : Nat) :
    Event.isSleep (Event.sleep n) = true := rfl

/-- Outcome of the `status.shutdown.post()` call: success, a raised
`ResourceException` (the only class the surrounding `except` catches),
or any other raised exception. -/
inductive ShutdownOutcome
  | ok
  | resourceExc
  | otherExc
deriving DecidableEq, Repr

/-- Oracle for the external calls made by one `perform_switch`
invocation, in program order. -/
structure Env where
  cfg : Config
  /-- `self._manual_lock` at entry. -/
  locked : Bool
  /-- `self._op_lock.locked()`: guard held by another in-flight switch. -/
  opLocked : Bool
  /-- Outcome of the preflight `get_vm_status(target_id)` query. -/
  targetQuery : QueryOutcome
  /-- Whether the preflight one-shot `bot.send_message` raises. -/
  notifyRaises : Bool
  /-- Whether the initial progress `bot.send_message` succeeds
  (on failure `progress_msg` stays `None` and edits are skipped). -/
  initMsgOk : Bool
  /-- Outcome of the `get_vm_status(source_id)` query. -/
  sourceQuery : QueryOutcome
  /-- Outcome of the `status.shutdown.post()` call. -/
  shutdownOutcome : ShutdownOutcome
  /-- Outcome of the i-th `get_vm_status(source_id)` poll inside
  `_wait_for_shutdown`. -/
  pollQuery : Nat → QueryOutcome
  /-- `none` when `status.stop.post()` succeeds; `some e` when it raises
  an exception whose `str` is `e`. -/
  forceStopErr : Option String
  /-- Outcome of the re-check `get_vm_status(target_id)` query. -/
  recheckQuery : QueryOutcome
  /-- `none` when `status.start.post()` succeeds; `some e` when it raises
  an exception whose `str` is `e`. -/
  startErr : Option String

/-- `target_id` as computed in `perform_switch`. -/
def targetIdOf (cfg : Config) (target_os : TargetOS) : Nat :=
  match target_os with
  | .linux => cfg.vm_id_linux
  | .windows => cfg.vm_id_win

/-- `source_id` as computed in `perform_switch`. -/
def sourceIdOf (cfg : Config) (target_os : TargetOS) : Nat :=
  match target_os with
  | .linux => cfg.vm_id_win
  | .windows => cfg.vm_id_linux

/-- `target_name` as computed in `perform_switch`. -/
def targetNameOf (target_os : TargetOS) : String :=
  match target_os with
  | .linux => "Linux"
  | .windows => "Windows"

/-- `source_name` as computed in `perform_switch`. -/
def sourceNameOf (target_os : TargetOS) : String :=
  match target_os with
  | .linux => "Windows"
  | .windows => "Linux"

/-- The dictionary `{"status": ..., "message": ...}` returned by
`perform_switch`. -/
structure SwitchResult where
  status : String
  message : String
deriving DecidableEq, Repr

/-- The `report` helper: edits the progress message when one exists
(`hasMsg`), otherwise returns immediately.  Failures of the edit call
are caught inside `report` and never influence control flow, so only
the issued call is recorded. -/
def report (hasMsg : Bool) (text : String) : List Event :=
  if hasMsg then [Event.editMsg text] else []

/-- `VMController._wait_for_shutdown`, polling from index `i` with
`fuel` iterations left (`fuel` starts at `timeout`): each iteration
queries the status, returns `true` on `"stopped"`, else sleeps one
second.  Returns the events and the boolean result. -/
def _wait_for_shutdown (vmid : Nat) (poll : Nat → QueryOutcome) :
    Nat → Nat → List Event × Bool
  | 0, _ => ([], false)
  | fuel + 1, i =>
    if get_vm_status (poll i) = "stopped" then
      ([Event.statusQuery vmid], true)
    else
      let rest := _wait_for_shutdown vmid poll fuel (i + 1)
      (Event.statusQuery vmid :: Event.sleep 1 :: rest.1, rest.2)

/-- How a phase of `perform_switch` hands control back: fall through to
the next phase, early `return` of a result, or an uncaught exception. -/
inductive PhaseExit
  | proceed
  | returned (r : SwitchResult)
  | raised
deriving DecidableEq, Repr

/-- The preflight block of `perform_switch` (the `try` around the
"target already running" check).  `get_vm_status` cannot raise, so the
only exception source inside the `try` is the one-shot
`bot.send_message`; when it raises, the handler logs and control falls
through to the main switch logic. -/
def preflight (env : Env) (target_id : Nat) (target_name : String)
    (quiet_on_skip : Bool) : List Event × PhaseExit :=
  let evQ := [Event.statusQuery target_id]
  if get_vm_status env.targetQuery = "running" then
    let msg := "ℹ️ <b>" ++ target_name ++ "</b> is already running. No action taken."
    if quiet_on_skip then
      (evQ, PhaseExit.returned ⟨"ok", target_name ++ " is already running"⟩)
    else if env.notifyRaises then
      (evQ ++ [Event.notifyMsg msg], PhaseExit.proceed)
    else
      (evQ ++ [Event.notifyMsg msg],
       PhaseExit.returned ⟨"ok", target_name ++ " is already running"⟩)
  else
    (evQ, PhaseExit.proceed)

/-- The "2. Shutdown Source" block of `perform_switch`: query the
source; when it is `"running"`, post a graceful shutdown (only
`ResourceException` is caught there — any other exception escapes),
run `_wait_for_shutdown` with the default 180-second timeout, and on
timeout escalate to a forced stop followed by a 3-second settle sleep;
a forced-stop exception reports failure and returns an error result. -/
def shutdown_phase (env : Env) (source_id : Nat)
    (source_name target_name : String) (hasMsg : Bool) :
    List Event × PhaseExit :=
  let evQ := [Event.statusQuery source_id]
  if get_vm_status env.sourceQuery = "running" then
    let evShut := evQ ++ [Event.shutdownPost source_id]
    if env.shutdownOutcome = ShutdownOutcome.otherExc then
      (evShut, PhaseExit.raised)
    else
      let w := _wait_for_shutdown source_id env.pollQuery 180 0
      if w.2 then
        (evShut ++ w.1, PhaseExit.proceed)
      else
        let evRep := report hasMsg
          ("🔄 <b>Switching to " ++ target_name ++ "...</b>\n⚠️ " ++
           source_name ++ " stuck. Force stopping...")
        match env.forceStopErr with
        | none =>
          (evShut ++ w.1 ++ evRep ++ [Event.stopPost source_id, Event.sleep 3],
           PhaseExit.proceed)
        | some e =>
          let msg := "Critical error stopping " ++ source_name ++ ": " ++ e
          (evShut ++ w.1 ++ evRep ++ [Event.stopPost source_id] ++
            report hasMsg ("❌ <b>Switch Failed</b>\n" ++ msg),
           PhaseExit.returned ⟨"error", msg⟩)
  else
    (evQ, PhaseExit.proceed)

/-- The "3. Start Target" block of `perform_switch`: progress update,
re-check of the target status, then a start post unless the target is
already running; any exception of the start post is caught and turned
into an error result. -/
def start_phase (env : Env) (target_id : Nat) (target_name : String)
    (hasMsg : Bool) : List Event × Option SwitchResult :=
  let evRep := report hasMsg
    ("🔄 <b>Switching to " ++ target_name ++ "...</b>\n🚀 Starting " ++
     target_name ++ "...")
  let evQ := [Event.statusQuery target_id]
  if get_vm_status env.recheckQuery ≠ "running" then
    match env.startErr with
    | none =>
      (evRep ++ evQ ++ [Event.startPost target_id] ++
        report hasMsg
          ("✅ <b>Switched to " ++ target_name ++ "</b>\n" ++ target_name ++
           " is starting."),
       some ⟨"ok", "Switched to " ++ target_name⟩)
    | some e =>
      let msg := "Failed to start " ++ target_name ++ ": " ++ e
      (evRep ++ evQ ++ [Event.startPost target_id] ++
        report hasMsg ("❌ <b>Switch Failed</b>\n" ++ msg),
       some ⟨"error", msg⟩)
  else
    (evRep ++ evQ ++
      report hasMsg ("ℹ️ <b>Info</b>\n" ++ target_name ++ " is already running."),
     some ⟨"ok", "Switched to " ++ target_name⟩)

/-- `VMController.perform_switch`.  Returns the trace of issued
external calls and the result dictionary, or `none` when an exception
escapes the function. -/
def perform_switch (env : Env) (target_os : TargetOS)
    (quiet_on_skip : Bool) : List Event × Option SwitchResult :=
  if env.locked then
    ([], some ⟨"error", "System is manually locked."⟩)
  else if env.opLocked then
    ([], some ⟨"error", "An operation is already in progress."⟩)
  else
    let target_id := targetIdOf env.cfg target_os
    let source_id := sourceIdOf env.cfg target_os
    let source_name := sourceNameOf target_os
    let target_name := targetNameOf target_os
    let pf := preflight env target_id target_name quiet_on_skip
    match pf.2 with
    | .returned r => (pf.1, some r)
    | .raised => (pf.1, none)
    | .proceed =>
      let evInit := [Event.initMsg
        ("🔄 <b>Switching to " ++ target_name ++ "...</b>\n⏳ Initializing...")]
      let hasMsg := env.initMsgOk
      let evRep := report hasMsg
        ("🔄 <b>Switching to " ++ target_name ++ "...</b>\n🛑 Shutting down " ++
         source_name ++ "...")
      let sp := shutdown_phase env source_id source_name target_name hasMsg
      match sp.2 with
      | .raised => (pf.1 ++ evInit ++ evRep ++ sp.1, none)
      | .returned r => (pf.1 ++ evInit ++ evRep ++ sp.1, some r)
      | .proceed =>
        let st := start_phase env target_id target_name hasMsg
        (pf.1 ++ evInit ++ evRep ++ sp.1 ++ st.1, st.2)

/-! ## Helper lemmas about traces -/

/-- Every event of the shutdown waiter is a status poll or a one-second
sleep. -/
theorem wait_events_shape (vmid : Nat) (poll : Nat → QueryOutcome) :
    ∀ fuel i e, e ∈ (_wait_for_shutdown vmid poll fuel i).1 →
      e = Event.statusQuery vmid ∨ e = Event.sleep 1 := by
  intro fuel
  induction fuel with
  | zero => intro i e he; simp [_wait_for_shutdown] at he
  | succ n ih =>
    intro i e he
    simp only [_wait_for_shutdown] at he
    by_cases h : get_vm_status (poll i) = "stopped"
    · simp [h] at he
      exact Or.inl he
    · simp [h] at he
      rcases he with he | he | he
      · exact Or.inl he
      · exact Or.inr he
      · exact ih (i + 1) e he

/-- A predicate that rejects status polls and sleeps filters the
waiter's trace to nothing. -/
theorem wait_filter (vmid : Nat) (poll : Nat → QueryOutcome)
    (fuel i : Nat) (p : Event → Bool)
    (h1 : p (Event.statusQuery vmid) = false)
    (h2 : p (Event.sleep 1) = false) :
    (_wait_for_shutdown vmid poll fuel i).1.filter p = [] := by
  refine List.filter_eq_nil_iff.mpr ?_
  intro e he
  rcases wait_events_shape vmid poll fuel i e he with h | h <;>
    simp [h, h1, h2]

/-- A predicate that rejects progress edits filters a `report`'s trace
to nothing. -/
theorem report_filter (hm : Bool) (text : String) (p : Event → Bool)
    (h : ∀ s, p (Event.editMsg s) = false) :
    (report hm text).filter p = [] := by
  cases hm <;> simp [report, h]

/-- A predicate that rejects progress edits, status queries of the
target and start posts of the target filters the start phase's trace to
nothing. -/
theorem start_phase_filter (env : Env) (tid : Nat) (tn : String)
    (hm : Bool) (p : Event → Bool)
    (h1 : ∀ s, p (Event.editMsg s) = false)
    (h2 : p (Event.statusQuery tid) = false)
    (h3 : p (Event.startPost tid) = false) :
    (start_phase env tid tn hm).1.filter p = [] := by
  rcases hse : env.startErr with _ | s <;>
    by_cases hr : get_vm_status env.recheckQuery = "running" <;>
    cases hm <;>
    simp [start_phase, report, hse, hr, h1, h2, h3, List.filter_append]

/-! ## Concrete configurations and environments -/

/-- A concrete configuration: Linux VM id 100, Windows VM id 101. -/
def cfgA : Config := ⟨100, 101⟩

/-- A successful query reporting `"stopped"`. -/
def stoppedQ : QueryOutcome := QueryOutcome.ok "stopped"

/-- A successful query reporting `"running"`. -/
def runningQ : QueryOutcome := QueryOutcome.ok "running"

/-- Builds an `Env` over `cfgA`. -/
def mkEnv (locked opLocked : Bool) (tq : QueryOutcome) (nr imOk : Bool)
    (sq : QueryOutcome) (so : ShutdownOutcome) (pq : Nat → QueryOutcome)
    (fe : Option String) (rq : QueryOutcome) (se : Option String) : Env :=
  ⟨cfgA, locked, opLocked, tq, nr, imOk, sq, so, pq, fe, rq, se⟩

/-- Manually locked system; everything else healthy. -/
def envLocked : Env :=
  mkEnv true false stoppedQ false true stoppedQ ShutdownOutcome.ok
    (fun _ => stoppedQ) none stoppedQ none

/-- Unlocked, but the operation guard is held by another invocation. -/
def envBusy : Env :=
  mkEnv false true stoppedQ false true stoppedQ ShutdownOutcome.ok
    (fun _ => stoppedQ) none stoppedQ none

/-- Target already running, but the one-shot notification raises;
source stopped, target still stopped at the re-check. -/
def envNotifyFail : Env :=
  mkEnv false false runningQ true true stoppedQ ShutdownOutcome.ok
    (fun _ => stoppedQ) none stoppedQ none

/-- Target already running and the one-shot notification succeeds. -/
def envAlreadyRunning : Env :=
  mkEnv false false runningQ false true stoppedQ ShutdownOutcome.ok
    (fun _ => stoppedQ) none stoppedQ none

/-- Source running; the shutdown post raises a non-`ResourceException`. -/
def envShutdownCrash : Env :=
  mkEnv false false stoppedQ false true runningQ ShutdownOutcome.otherExc
    (fun _ => runningQ) none stoppedQ none

/-- Source running; the shutdown post raises a `ResourceException`;
the source then stops at the first poll. -/
def envShutdownResErr : Env :=
  mkEnv false false stoppedQ false true runningQ ShutdownOutcome.resourceExc
    (fun _ => stoppedQ) none stoppedQ none

/-- Source running and never stopping: the waiter times out; the forced
stop succeeds. -/
def envTimeout : Env :=
  mkEnv false false stoppedQ false true runningQ ShutdownOutcome.ok
    (fun _ => runningQ) none stoppedQ none

/-- Source running and never stopping: the waiter times out; the forced
stop raises. -/
def envForceStopFail : Env :=
  mkEnv false false stoppedQ false true runningQ ShutdownOutcome.ok
    (fun _ => runningQ) (some "boom") stoppedQ none

/-- The source status query fails, so `get_vm_status` reports
`"error"`; every other call healthy. -/
def envSourceError : Env :=
  mkEnv false false stoppedQ false true QueryOutcome.exc ShutdownOutcome.ok
    (fun _ => stoppedQ) none stoppedQ none

/-! ## Claims -/

/-- C1 (counterexample): with the manual lock set, `perform_switch`
indeed short-circuits with an error and an empty trace, but the message
is `"System is manually locked."` (with a trailing period), not
`"System is manually locked"` as the claim states. -/
theorem claim1_counterexample :
    (perform_switch envLocked TargetOS.linux false).1 = [] ∧
    (perform_switch envLocked TargetOS.linux false).2 =
      some ⟨"error", "System is manually locked."⟩ ∧
    (perform_switch envLocked TargetOS.linux false).2 ≠
      some ⟨"error", "System is manually locked"⟩ := by
  decide

/-- C1 (amended): for every target role and every environment, when the
manual lock flag is set `perform_switch` returns the error result with
message `"System is manually locked."` and issues zero external calls
of any kind (zero Control-Plane calls, zero progress messages). -/
theorem claim1_locked_rejects (env : Env) (t : TargetOS) (q : Bool)
    (h : env.locked = true) :
    perform_switch env t q = ([], some ⟨"error", "System is manually locked."⟩) := by
  simp [perform_switch, h]

/-- C1 (witness): the amended theorem applied to a concrete locked
environment. -/
theorem claim1_locked_rejects_witness :
    perform_switch envLocked TargetOS.linux false =
      ([], some ⟨"error", "System is manually locked."⟩) :=
  claim1_locked_rejects envLocked TargetOS.linux false rfl

/-- C2 (counterexample): with the guard held by another in-flight
invocation, `perform_switch` indeed returns immediately with an error
and an empty trace, but the message is
`"An operation is already in progress."` (with a trailing period), not
`"An operation is already in progress"` as the claim states. -/
theorem claim2_counterexample :
    (perform_switch envBusy TargetOS.windows false).1 = [] ∧
    (perform_switch envBusy TargetOS.windows false).2 =
      some ⟨"error", "An operation is already in progress."⟩ ∧
    (perform_switch envBusy TargetOS.windows false).2 ≠
      some ⟨"error", "An operation is already in progress"⟩ := by
  decide

/-- C2 (amended): whenever the operation guard is already held by
another in-flight switch (the non-blocking `locked()` check), the call
returns immediately with the error result
`"An operation is already in progress."` and an empty trace — zero
Control-Plane calls; the body behind the guard is never entered. -/
theorem claim2_guard_rejects (env : Env) (t : TargetOS) (q : Bool)
    (h1 : env.locked = false) (h2 : env.opLocked = true) :
    perform_switch env t q =
      ([], some ⟨"error", "An operation is already in progress."⟩) := by
  simp [perform_switch, h1, h2]

/-- C2 (witness): the amended theorem applied to a concrete busy
environment. -/
theorem claim2_guard_rejects_witness :
    perform_switch envBusy TargetOS.windows false =
      ([], some ⟨"error", "An operation is already in progress."⟩) :=
  claim2_guard_rejects envBusy TargetOS.windows false rfl rfl

/-- C7 (counterexample): a lock file whose content is `" LOCKED"` (one
leading space) is not the single-line text `LOCKED` nor `UNLOCKED`, yet
`_load_lock_state` yields locked, because the code strips whitespace
before comparing. -/
theorem claim7_counterexample :
    _load_lock_state (FileState.content " LOCKED") = true ∧
    " LOCKED" ≠ "LOCKED" ∧ " LOCKED" ≠ "UNLOCKED" := by
  decide

/-- C7 (amended): `set_lock b` followed by a fresh `_load_lock_state`
yields `b` when the file write succeeded, and loading yields unlocked
(`false`) whenever the lock file is absent, unreadable, or its content
stripped of leading/trailing whitespace differs from `"LOCKED"`. -/
theorem claim7_lock_roundtrip (b : Bool) (fs : FileState) (s : String)
    (hs : pyStrip s ≠ "LOCKED") :
    _load_lock_state (set_lock b fs true).2 = b ∧
    _load_lock_state FileState.absent = false ∧
    _load_lock_state FileState.unreadable = false ∧
    _load_lock_state (FileState.content s) = false := by
  refine ⟨?_, rfl, rfl, ?_⟩
  · cases b <;> simp only [set_lock, if_true] <;> decide
  · simp [_load_lock_state, hs]

/-- C7 (witness): the amended theorem applied to a concrete corrupt
content. -/
theorem claim7_lock_roundtrip_witness :
    _load_lock_state (set_lock true FileState.absent true).2 = true ∧
    _load_lock_state FileState.absent = false ∧
    _load_lock_state FileState.unreadable = false ∧
    _load_lock_state (FileState.content "garbage") = false :=
  claim7_lock_roundtrip true FileState.absent "garbage" (by decide)

/-- C8 (confirmed): after `set_lock b`, `is_locked` reports `b`
whatever the write outcome was: the write failure is swallowed (the
function is total) and the in-memory value is not rolled back. -/
theorem claim8_set_lock_authoritative (b : Bool) (fs : FileState)
    (writeOk : Bool) :
    is_locked (set_lock b fs writeOk).1 = b ∧
    (set_lock b fs false).1 = (set_lock b fs true).1 := by
  simp [is_locked, set_lock]

/-- C9 (counterexample): the `locked` entry of `get_full_status` is the
Python string `str(self.is_locked)` — the value `"True"` — and not a
boolean, contrary to the claim. -/
theorem claim9_counterexample :
    (get_full_status QueryOutcome.exc (QueryOutcome.ok "running") true).locked =
      PyVal.pystr "True" ∧
    (get_full_status QueryOutcome.exc (QueryOutcome.ok "running") true).locked ≠
      PyVal.pybool true ∧
    (get_full_status QueryOutcome.exc (QueryOutcome.ok "running") true).locked ≠
      PyVal.pybool false := by
  decide

/-- C9 (amended): `get_full_status` queries each role independently —
a failed query yields `"error"` for that role only, leaving the other
role's report unchanged — and carries the lock state in the `locked`
entry as the string `str(is_locked)` (`"True"`/`"False"`), not as a
boolean. -/
theorem claim9_status_independent (qa qb : QueryOutcome) (lock : Bool) :
    (get_full_status QueryOutcome.exc qb lock).linux = "error" ∧
    (get_full_status QueryOutcome.exc qb lock).windows =
      (get_full_status qa qb lock).windows ∧
    (get_full_status qa QueryOutcome.exc lock).windows = "error" ∧
    (get_full_status qa QueryOutcome.exc lock).linux =
      (get_full_status qa qb lock).linux ∧
    (get_full_status qa qb lock).locked = PyVal.pystr (pyStrOfBool lock) := by
  simp [get_full_status, get_vm_status]

/-- C3 (counterexample): target already running, `quiet_on_skip` false,
and the one-shot notification raises: the exception is swallowed by the
preflight handler, the `return` is skipped, and the switch proceeds —
it issues a start call and returns `"Switched to Linux"`, not the
already-running result the claim promises regardless of notification
failure. -/
theorem claim3_counterexample :
    Event.startPost 100 ∈ (perform_switch envNotifyFail TargetOS.linux false).1 ∧
    (perform_switch envNotifyFail TargetOS.linux false).1.filter Event.isMutation ≠ [] ∧
    (perform_switch envNotifyFail TargetOS.linux false).2 ≠
      some ⟨"ok", "Linux is already running"⟩ := by
  decide

/-- C3 (amended): when the system is unlocked, the guard free and the
preflight query observes the target `"running"`, then — provided
`quiet_on_skip` is set or the one-shot notification does not raise —
`perform_switch` issues no shutdown, force-stop or start call, sends
the one-shot notification (unless `quiet_on_skip`), and returns `ok`
with the already-running message.  (When the notification raises, the
preflight handler swallows the exception and the switch proceeds as if
the target had not been running.) -/
theorem claim3_already_running_skips (env : Env) (t : TargetOS) (q : Bool)
    (h1 : env.locked = false) (h2 : env.opLocked = false)
    (h3 : get_vm_status env.targetQuery = "running")
    (h4 : q = true ∨ env.notifyRaises = false) :
    (perform_switch env t q).2 =
      some ⟨"ok", targetNameOf t ++ " is already running"⟩ ∧
    (perform_switch env t q).1.filter Event.isMutation = [] ∧
    (q = false →
      Event.notifyMsg ("ℹ️ <b>" ++ targetNameOf t ++
          "</b> is already running. No action taken.")
        ∈ (perform_switch env t q).1) := by
  rcases h4 with h4 | h4
  · subst h4
    simp [perform_switch, preflight, h1, h2, h3, Event.isMutation]
  · cases q
    · simp [perform_switch, preflight, h1, h2, h3, h4, Event.isMutation]
    · simp [perform_switch, preflight, h1, h2, h3, Event.isMutation]

/-- C3 (witness): the amended theorem applied to a concrete environment
where the target is already running and the notification succeeds. -/
theorem claim3_already_running_skips_witness :
    (perform_switch envAlreadyRunning TargetOS.linux false).2 =
      some ⟨"ok", targetNameOf TargetOS.linux ++ " is already running"⟩ ∧
    (perform_switch envAlreadyRunning TargetOS.linux false).1.filter
      Event.isMutation = [] ∧
    (false = false →
      Event.notifyMsg ("ℹ️ <b>" ++ targetNameOf TargetOS.linux ++
          "</b> is already running. No action taken.")
        ∈ (perform_switch envAlreadyRunning TargetOS.linux false).1) :=
  claim3_already_running_skips envAlreadyRunning TargetOS.linux false rfl rfl rfl
    (Or.inr rfl)

/-- Replaces the shutdown-post outcome of an environment with success. -/
def withShutdownOK : Env → Env
  | ⟨cfg, l, o, tq, nr, im, sq, _, pq, fe, rq, se⟩ =>
    ⟨cfg, l, o, tq, nr, im, sq, ShutdownOutcome.ok, pq, fe, rq, se⟩

/-- C4 (counterexample): when the shutdown post raises an exception that
is not a `ResourceException` (the only class the `except` clause names),
the exception escapes `perform_switch` (`none`): the Shutdown Waiter is
never reached (no poll and no sleep after the shutdown post), refuting
"the orchestrator never raises past its own boundary". -/
theorem claim4_counterexample :
    (perform_switch envShutdownCrash TargetOS.linux true).2 = none ∧
    Event.shutdownPost 101 ∈ (perform_switch envShutdownCrash TargetOS.linux true).1 ∧
    Event.sleep 1 ∉ (perform_switch envShutdownCrash TargetOS.linux true).1 ∧
    Event.startPost 100 ∉ (perform_switch envShutdownCrash TargetOS.linux true).1 := by
  decide

/-- C4 (amended): a `ResourceException` raised by the shutdown post is
logged and changes nothing: the run (trace and result) is identical to
the run in which the shutdown post succeeded, so the flow proceeds to
the Shutdown Waiter exactly as on success.  (Any other exception class
escapes `perform_switch`, as the counterexample shows.) -/
theorem claim4_resource_exc_nonfatal (env : Env) (t : TargetOS) (q : Bool)
    (h : env.shutdownOutcome = ShutdownOutcome.resourceExc) :
    perform_switch env t q = perform_switch (withShutdownOK env) t q := by
  rcases env with ⟨cfg, l, o, tq, nr, im, sq, so, pq, fe, rq, se⟩
  have h' : so = ShutdownOutcome.resourceExc := h
  subst h'
  simp [perform_switch, preflight, shutdown_phase, start_phase, withShutdownOK]

/-- C4 (witness): the amended theorem applied to a concrete environment
where the shutdown post raises a `ResourceException`. -/
theorem claim4_resource_exc_nonfatal_witness :
    perform_switch envShutdownResErr TargetOS.linux true =
      perform_switch (withShutdownOK envShutdownResErr) TargetOS.linux true :=
  claim4_resource_exc_nonfatal envShutdownResErr TargetOS.linux true rfl

/-- C10 (confirmed): whenever the source-role status check at the start
of the shutdown phase yields anything but `"running"` — including the
`"error"` value that `get_vm_status` substitutes for a failed query —
`perform_switch` issues no shutdown post, no forced stop and no sleep
of any kind, and its result is exactly the start phase's result. -/
theorem claim10_source_not_running_skips_shutdown (env : Env) (t : TargetOS)
    (q : Bool) (h1 : env.locked = false) (h2 : env.opLocked = false)
    (hpre : get_vm_status env.targetQuery = "running" →
      q = false ∧ env.notifyRaises = true)
    (h4 : get_vm_status env.sourceQuery ≠ "running") :
    (perform_switch env t q).1.filter
      (fun ev => ev.isShutdownReq || ev.isForceStop || ev.isSleep) = [] ∧
    (perform_switch env t q).2 =
      (start_phase env (targetIdOf env.cfg t) (targetNameOf t) env.initMsgOk).2 := by
  have hrep : ∀ (hm : Bool) (text : String),
      (report hm text).filter
        (fun ev => ev.isShutdownReq || ev.isForceStop || ev.isSleep) = [] := by
    intro hm text
    cases hm <;> simp [report]
  have hstf := start_phase_filter env (targetIdOf env.cfg t) (targetNameOf t)
    env.initMsgOk (fun ev => ev.isShutdownReq || ev.isForceStop || ev.isSleep)
    (fun _ => rfl) rfl rfl
  by_cases htr : get_vm_status env.targetQuery = "running"
  · obtain ⟨hq, hnr⟩ := hpre htr
    subst hq
    simp [perform_switch, preflight, shutdown_phase, htr, hnr, h1, h2,
      h4, List.filter_append, hstf, hrep, -List.filter_eq_nil_iff]
  · simp [perform_switch, preflight, shutdown_phase, htr, h1, h2,
      h4, List.filter_append, hstf, hrep, -List.filter_eq_nil_iff]

/-- C10 (witness): the theorem applied to a concrete environment whose
source status query fails (reported as `"error"`). -/
theorem claim10_source_not_running_skips_shutdown_witness :
    (perform_switch envSourceError TargetOS.linux false).1.filter
      (fun ev => ev.isShutdownReq || ev.isForceStop || ev.isSleep) = [] ∧
    (perform_switch envSourceError TargetOS.linux false).2 =
      (start_phase envSourceError (targetIdOf envSourceError.cfg TargetOS.linux)
        (targetNameOf TargetOS.linux) envSourceError.initMsgOk).2 :=
  claim10_source_not_running_skips_shutdown envSourceError TargetOS.linux false
    rfl rfl (by decide) (by decide)

/-- C5 (confirmed): whenever the source role is observed running, the
shutdown post does not escape, and the Shutdown Waiter does not observe
`"stopped"` within the 180-second deadline, `perform_switch` issues
exactly one forced-stop call; and when that call succeeds it is
followed immediately by the 3-second settle sleep, with no forced stop
and no start call anywhere before it. -/
theorem claim5_force_stop_once (env : Env) (t : TargetOS) (q : Bool)
    (h1 : env.locked = false) (h2 : env.opLocked = false)
    (hpre : get_vm_status env.targetQuery = "running" →
      q = false ∧ env.notifyRaises = true)
    (h4 : get_vm_status env.sourceQuery = "running")
    (h5 : env.shutdownOutcome ≠ ShutdownOutcome.otherExc)
    (h6 : (_wait_for_shutdown (sourceIdOf env.cfg t) env.pollQuery 180 0).2 = false) :
    ((perform_switch env t q).1.filter Event.isForceStop).length = 1 ∧
    (env.forceStopErr = none →
      ∃ pre post, (perform_switch env t q).1 =
        pre ++ Event.stopPost (sourceIdOf env.cfg t) :: Event.sleep 3 :: post ∧
        pre.filter Event.isForceStop = [] ∧ pre.filter Event.isStart = []) := by
  have hwfF := wait_filter (sourceIdOf env.cfg t) env.pollQuery 180 0
    Event.isForceStop rfl rfl
  have hwfS := wait_filter (sourceIdOf env.cfg t) env.pollQuery 180 0
    Event.isStart rfl rfl
  have hstf := start_phase_filter env (targetIdOf env.cfg t) (targetNameOf t)
    env.initMsgOk Event.isForceStop (fun _ => rfl) rfl rfl
  have hrepF : ∀ (hm : Bool) (text : String),
      (report hm text).filter Event.isForceStop = [] :=
    fun hm text => report_filter hm text Event.isForceStop (fun _ => rfl)
  have hrepS : ∀ (hm : Bool) (text : String),
      (report hm text).filter Event.isStart = [] :=
    fun hm text => report_filter hm text Event.isStart (fun _ => rfl)
  refine ⟨?_, ?_⟩
  · by_cases htr : get_vm_status env.targetQuery = "running"
    · obtain ⟨hq, hnr⟩ := hpre htr
      subst hq
      rcases hfe : env.forceStopErr with _ | e <;>
        simp [perform_switch, preflight, shutdown_phase, htr, hnr, h1, h2, h4,
          h5, h6, hfe, List.filter_append, hwfF, hstf, hrepF,
          -List.filter_eq_nil_iff]
    · rcases hfe : env.forceStopErr with _ | e <;>
        simp [perform_switch, preflight, shutdown_phase, htr, h1, h2, h4,
          h5, h6, hfe, List.filter_append, hwfF, hstf, hrepF,
          -List.filter_eq_nil_iff]
  intro hfe
  by_cases htr : get_vm_status env.targetQuery = "running"
  · obtain ⟨hq, hnr⟩ := hpre htr
    subst hq
    refine ⟨Event.statusQuery (targetIdOf env.cfg t) ::
      Event.notifyMsg ("ℹ️ <b>" ++ targetNameOf t ++
        "</b> is already running. No action taken.") ::
      Event.initMsg ("🔄 <b>Switching to " ++ targetNameOf t ++
        "...</b>\n⏳ Initializing...") ::
      (report env.initMsgOk ("🔄 <b>Switching to " ++ targetNameOf t ++
          "...</b>\n🛑 Shutting down " ++ sourceNameOf t ++ "...") ++
        Event.statusQuery (sourceIdOf env.cfg t) ::
        Event.shutdownPost (sourceIdOf env.cfg t) ::
        ((_wait_for_shutdown (sourceIdOf env.cfg t) env.pollQuery 180 0).1 ++
          report env.initMsgOk ("🔄 <b>Switching to " ++ targetNameOf t ++
            "...</b>\n⚠️ " ++ sourceNameOf t ++ " stuck. Force stopping..."))),
      (start_phase env (targetIdOf env.cfg t) (targetNameOf t) env.initMsgOk).1,
      ?_, ?_, ?_⟩
    · simp [perform_switch, preflight, shutdown_phase, htr, hnr, h1, h2, h4,
        h5, h6, hfe, List.append_assoc]
    · simp [List.filter_append, hwfF, hrepF]
    · simp [List.filter_append, hwfS, hrepS]
  · refine ⟨Event.statusQuery (targetIdOf env.cfg t) ::
      Event.initMsg ("🔄 <b>Switching to " ++ targetNameOf t ++
        "...</b>\n⏳ Initializing...") ::
      (report env.initMsgOk ("🔄 <b>Switching to " ++ targetNameOf t ++
          "...</b>\n🛑 Shutting down " ++ sourceNameOf t ++ "...") ++
        Event.statusQuery (sourceIdOf env.cfg t) ::
        Event.shutdownPost (sourceIdOf env.cfg t) ::
        ((_wait_for_shutdown (sourceIdOf env.cfg t) env.pollQuery 180 0).1 ++
          report env.initMsgOk ("🔄 <b>Switching to " ++ targetNameOf t ++
            "...</b>\n⚠️ " ++ sourceNameOf t ++ " stuck. Force stopping..."))),
      (start_phase env (targetIdOf env.cfg t) (targetNameOf t) env.initMsgOk).1,
      ?_, ?_, ?_⟩
    · simp [perform_switch, preflight, shutdown_phase, htr, h1, h2, h4,
        h5, h6, hfe, List.append_assoc]
    · simp [List.filter_append, hwfF, hrepF]
    · simp [List.filter_append, hwfS, hrepS]

/-- C5 (witness): the theorem applied to a concrete environment whose
source never stops, making the 180-second waiter time out. -/
theorem claim5_force_stop_once_witness :
    ((perform_switch envTimeout TargetOS.linux false).1.filter
      Event.isForceStop).length = 1 ∧
    (envTimeout.forceStopErr = none →
      ∃ pre post, (perform_switch envTimeout TargetOS.linux false).1 =
        pre ++ Event.stopPost (sourceIdOf envTimeout.cfg TargetOS.linux) ::
          Event.sleep 3 :: post ∧
        pre.filter Event.isForceStop = [] ∧ pre.filter Event.isStart = []) :=
  claim5_force_stop_once envTimeout TargetOS.linux false rfl rfl (by decide)
    rfl (by decide) (by decide)

/-- C6 (confirmed): when the waiter has timed out and the forced-stop
post raises with text `e`, `perform_switch` returns the error result
`"Critical error stopping <source>: <e>"`, issues no start call at all,
and — whenever the progress channel was opened — pushes the
`"Switch Failed"` progress update. -/
theorem claim6_force_stop_failure_aborts (env : Env) (t : TargetOS) (q : Bool)
    (e : String) (h1 : env.locked = false) (h2 : env.opLocked = false)
    (hpre : get_vm_status env.targetQuery = "running" →
      q = false ∧ env.notifyRaises = true)
    (h4 : get_vm_status env.sourceQuery = "running")
    (h5 : env.shutdownOutcome ≠ ShutdownOutcome.otherExc)
    (h6 : (_wait_for_shutdown (sourceIdOf env.cfg t) env.pollQuery 180 0).2 = false)
    (hfe : env.forceStopErr = some e) :
    (perform_switch env t q).2 =
      some ⟨"error", "Critical error stopping " ++ sourceNameOf t ++ ": " ++ e⟩ ∧
    (perform_switch env t q).1.filter Event.isStart = [] ∧
    (env.initMsgOk = true →
      Event.editMsg ("❌ <b>Switch Failed</b>\n" ++
        ("Critical error stopping " ++ sourceNameOf t ++ ": " ++ e)) ∈
        (perform_switch env t q).1) := by
  have hwfS := wait_filter (sourceIdOf env.cfg t) env.pollQuery 180 0
    Event.isStart rfl rfl
  by_cases htr : get_vm_status env.targetQuery = "running"
  · obtain ⟨hq, hnr⟩ := hpre htr
    subst hq
    cases him : env.initMsgOk <;>
      simp [perform_switch, preflight, shutdown_phase, report, htr, hnr, h1, h2,
        h4, h5, h6, hfe, him, List.filter_append, hwfS, -List.filter_eq_nil_iff]
  · cases him : env.initMsgOk <;>
      simp [perform_switch, preflight, shutdown_phase, report, htr, h1, h2,
        h4, h5, h6, hfe, him, List.filter_append, hwfS, -List.filter_eq_nil_iff]

/-- C6 (witness): the theorem applied to a concrete environment whose
source never stops and whose forced stop raises `"boom"`. -/
theorem claim6_force_stop_failure_aborts_witness :
    (perform_switch envForceStopFail TargetOS.linux false).2 =
      some ⟨"error", "Critical error stopping " ++ sourceNameOf TargetOS.linux ++
        ": " ++ "boom"⟩ ∧
    (perform_switch envForceStopFail TargetOS.linux false).1.filter
      Event.isStart = [] ∧
    (envForceStopFail.initMsgOk = true →
      Event.editMsg ("❌ <b>Switch Failed</b>\n" ++
        ("Critical error stopping " ++ sourceNameOf TargetOS.linux ++
          ": " ++ "boom")) ∈
        (perform_switch envForceStopFail TargetOS.linux false).1) :=
  claim6_force_stop_failure_aborts envForceStopFail TargetOS.linux false "boom"
    rfl rfl (by decide) rfl (by decide) (by decide) rfl
